import Mathlib

/-!
Verification of the envcli example plugin (`examples/plugin/example_plugin.py`):
a single-shot JSON request/response dispatcher. Python dicts are embedded as
association-list JSON objects so that field-presence properties are meaningful;
the two environmental values the handlers read (`time.time()`, `sys.version`)
are parameters of the embedding.
-/

/-- A JSON value, as built and consumed by the plugin script.  Objects are
association lists, preserving insertion order like Python dicts. -/
inductive Json where
  | null : Json
  | bool : Bool → Json
  | str : String → Json
  | arr : List Json → Json
  | obj : List (String × Json) → Json
  deriving Repr

namespace ExamplePlugin

/-- Python `d.get(key)` on an association list: first binding wins. -/
def pyGet {α : Type} : List (String × α) → String → Option α
  | [], _ => none
  | (k, v) :: rest, key => if key = k then some v else pyGet rest key

/-- Field lookup on a JSON object (`none` on non-objects and absent keys). -/
def Json.lookup : Json → String → Option Json
  | .obj kvs, key => pyGet kvs key
  | _, _ => none

/-- Environmental inputs read by the handlers: `str(time.time())` and
`sys.version.split()[0]`. -/
structure PyEnv where
  timeStr : String
  versionStr : String
  deriving Repr, DecidableEq

/-- The request's `context` value: a JSON object of string values, as the
handlers consume it via `context.get(key, default)`. -/
abbrev Context : Type := List (String × String)

/-- Python `context.get(key, default)`. -/
def ctxGet (context : Context) (key dflt : String) : String :=
  (pyGet context key).getD dflt

/-- `get_metadata` from the script: the plugin's fixed static descriptor. -/
def get_metadata : Json :=
  Json.obj [
    ("id", Json.str "python-example"),
    ("name", Json.str "Python Example Plugin"),
    ("version", Json.str "1.0.0"),
    ("description", Json.str "Python 外部插件示例"),
    ("author", Json.str "EnvCLI Team"),
    ("plugin_type", Json.str "ExternalExecutable"),
    ("hooks", Json.arr [Json.str "PreCommand", Json.str "PostCommand",
                        Json.str "PreRun", Json.str "PostRun"]),
    ("extensions", Json.arr []),
    ("config_schema", Json.null),
    ("enabled", Json.bool true),
    ("dependencies", Json.arr []),
    ("platforms", Json.arr [Json.str "Windows", Json.str "Linux", Json.str "MacOS"]),
    ("envcli_version", Json.null)
  ]

/-- `handle_pre_command` from the script (the stderr print is a side channel
and is not part of the returned value). -/
def handle_pre_command (env : PyEnv) (context : Context) : Json :=
  let command := ctxGet context "command" "unknown"
  Json.obj [
    ("modified_env", Json.obj [
      ("PYTHON_PLUGIN", Json.str "active"),
      ("LAST_COMMAND", Json.str command),
      ("COMMAND_TIME", Json.str env.timeStr)]),
    ("plugin_data", Json.obj []),
    ("continue_execution", Json.bool true),
    ("message", Json.str ("Python plugin processed pre-command: " ++ command))
  ]

/-- `handle_post_command` from the script. -/
def handle_post_command (env : PyEnv) (context : Context) : Json :=
  let command := ctxGet context "command" "unknown"
  Json.obj [
    ("modified_env", Json.obj []),
    ("plugin_data", Json.obj [
      ("python_executed", Json.str "true"),
      ("timestamp", Json.str env.timeStr)]),
    ("continue_execution", Json.bool true),
    ("message", Json.str ("Python plugin processed post-command: " ++ command))
  ]

/-- `handle_pre_run` from the script. -/
def handle_pre_run (env : PyEnv) (context : Context) : Json :=
  let _command := ctxGet context "command" "unknown"
  Json.obj [
    ("modified_env", Json.obj [
      ("PYTHON_RUN_MODE", Json.str "example"),
      ("PYTHON_VERSION", Json.str env.versionStr)]),
    ("plugin_data", Json.obj []),
    ("continue_execution", Json.bool true),
    ("message", Json.str "Python plugin pre-run hook")
  ]

/-- `handle_post_run` from the script. -/
def handle_post_run (_env : PyEnv) (context : Context) : Json :=
  let _command := ctxGet context "command" "unknown"
  Json.obj [
    ("modified_env", Json.obj []),
    ("plugin_data", Json.obj []),
    ("continue_execution", Json.bool true),
    ("message", Json.str "Python plugin post-run hook")
  ]

/-- The `handlers` dict built inside `execute_hook`. -/
def handlers : List (String × (PyEnv → Context → Json)) :=
  [("PreCommand", handle_pre_command),
   ("PostCommand", handle_post_command),
   ("PreRun", handle_pre_run),
   ("PostRun", handle_post_run)]

/-- The neutral default HookResult returned for an unregistered hook
identifier (`execute_hook`'s else branch). -/
def default_hook_result : Json :=
  Json.obj [
    ("modified_env", Json.obj []),
    ("plugin_data", Json.obj []),
    ("continue_execution", Json.bool true),
    ("message", Json.null)
  ]

/-- `execute_hook` from the script: look the identifier up in `handlers`;
an unregistered identifier resolves to the neutral default result. -/
def execute_hook (env : PyEnv) (hook_type : String) (context : Context) : Json :=
  match pyGet handlers hook_type with
  | some handler => handler env context
  | none => default_hook_result

/-- The decoded request dict as `main` reads it: each field recovered with
`request.get`, so each is optional. -/
structure Request where
  action : Option String
  hook_type : Option String
  context : Option Context
  config : Option Json
  deriving Repr

/-- Python's f-string rendering of the `action` value in the unknown-action
error message: a string renders as itself, an absent field (`None`) renders
as `"None"`. -/
def pyStrOptAction : Option String → String
  | none => "None"
  | some s => s

/-- The dispatch part of `main` (between `json.load` and `json.dump`):
route the decoded request by its `action` field to a response dict.
`if not hook_type` is Python truthiness on an optional string: true exactly
when the field is absent or the empty string. -/
def dispatch (env : PyEnv) (req : Request) : Json :=
  let action := req.action
  if action = some "metadata" then
    Json.obj [("success", Json.bool true), ("metadata", get_metadata)]
  else if action = some "execute_hook" then
    let hook_type := req.hook_type
    let context := req.context.getD []
    if hook_type.getD "" = "" then
      Json.obj [("success", Json.bool false), ("error", Json.str "Missing hook_type")]
    else
      Json.obj [("success", Json.bool true),
                ("result", execute_hook env (hook_type.getD "") context)]
  else if action = some "initialize" then
    Json.obj [("success", Json.bool true)]
  else if action = some "shutdown" then
    Json.obj [("success", Json.bool true)]
  else
    Json.obj [("success", Json.bool false),
              ("error", Json.str ("Unknown action: " ++ pyStrOptAction action))]

/-- `main` with its try/except envelope.  The input is the outcome of
`json.load(sys.stdin)`: either a decoded request or an exception message.
Output: the JSON document written to stdout, paired with the process exit
status (the except branch calls `sys.exit(1)`; otherwise the process exits
normally with status 0). -/
def main (env : PyEnv) (input : Except String Request) : Json × Nat :=
  match input with
  | Except.ok req => (dispatch env req, 0)
  | Except.error e =>
      (Json.obj [("success", Json.bool false), ("error", Json.str e)], 1)

/-- The response invariant of §3: `success = false` iff an `error` field is
present, and at most one of `metadata`/`result` is present. -/
def responseInvariant (r : Json) : Prop :=
  ((Json.lookup r "success" = some (Json.bool false)) ↔ (Json.lookup r "error").isSome)
  ∧ ¬((Json.lookup r "metadata").isSome ∧ (Json.lookup r "result").isSome)

/-- A concrete environment used by witnesses: one `str(time.time())` sample
and one `sys.version` prefix. -/
def envA : PyEnv := { timeStr := "1700000000.25", versionStr := "3.11.4" }

/-- A concrete metadata request with every other field populated. -/
def reqC1 : Request :=
  { action := some "metadata", hook_type := some "PreRun",
    context := some [("command", "build")], config := some (Json.bool true) }

/-- A concrete execute_hook request with no `hook_type` field. -/
def reqC3 : Request :=
  { action := some "execute_hook", hook_type := none,
    context := some [("command", "ls")], config := none }

/-- A concrete execute_hook request whose `hook_type` is the empty string. -/
def reqC4 : Request :=
  { action := some "execute_hook", hook_type := some "",
    context := some [("command", "ls")], config := none }

/-- A concrete execute_hook request with an unregistered hook identifier. -/
def reqC4a : Request :=
  { action := some "execute_hook", hook_type := some "TotallyUnknownHook",
    context := some [("command", "ls")], config := none }

/-- A concrete execute_hook request with a registered hook identifier. -/
def reqC5 : Request :=
  { action := some "execute_hook", hook_type := some "PreCommand",
    context := some [("command", "ls"), ("args", "-la")], config := none }

/-- A concrete request with an unrecognized action. -/
def reqC6 : Request :=
  { action := some "bogus_action", hook_type := none,
    context := none, config := none }

/-- A concrete execute_hook request used for the HookResult-shape witness. -/
def reqC8 : Request :=
  { action := some "execute_hook", hook_type := some "PostCommand",
    context := some [], config := none }

/-- A concrete execute_hook request whose `hook_type` is present but falsy. -/
def reqC9 : Request :=
  { action := some "execute_hook", hook_type := some "",
    context := some [("command", "echo")], config := none }

/-- A hook identifier that is not a key of `handlers` looks up to `none`. -/
theorem pyGet_handlers_eq_none (ht : String)
    (h : ht ∉ (["PreCommand", "PostCommand", "PreRun", "PostRun"] : List String)) :
    pyGet handlers ht = none := by
  simp only [List.mem_cons, List.not_mem_nil, or_false, not_or] at h
  simp [handlers, pyGet, h.1, h.2.1, h.2.2.1, h.2.2.2]

/-- Whatever the hook identifier, the value `execute_hook` returns is an
object carrying all four HookResult keys. -/
theorem execute_hook_keys (env : PyEnv) (ht : String) (ctx : Context) :
    (Json.lookup (execute_hook env ht ctx) "modified_env").isSome = true ∧
    (Json.lookup (execute_hook env ht ctx) "plugin_data").isSome = true ∧
    (Json.lookup (execute_hook env ht ctx) "continue_execution").isSome = true ∧
    (Json.lookup (execute_hook env ht ctx) "message").isSome = true := by
  unfold execute_hook
  rcases hh : pyGet handlers ht with _ | handler
  · simp [default_hook_result, Json.lookup, pyGet]
  · have : handler = handle_pre_command ∨ handler = handle_post_command ∨
        handler = handle_pre_run ∨ handler = handle_post_run := by
      revert hh
      simp [handlers, pyGet]
      split_ifs <;> simp <;> intro h <;> simp [h.symm]
    rcases this with rfl | rfl | rfl | rfl <;>
      simp [handle_pre_command, handle_post_command, handle_pre_run, handle_post_run,
        Json.lookup, pyGet]

/-- C1: a request whose `action` is `"metadata"` always gets the response
`{success: true, metadata: <fixed descriptor>}` with exit status 0, whatever
the values of `hook_type`, `context` and `config`; the descriptor has id
`"python-example"`, version `"1.0.0"` and the four hooks. -/
theorem metadata_action_fixed_descriptor (env : PyEnv) (req : Request)
    (h : req.action = some "metadata") :
    main env (Except.ok req) =
      (Json.obj [("success", Json.bool true), ("metadata", get_metadata)], 0)
    ∧ Json.lookup get_metadata "id" = some (Json.str "python-example")
    ∧ Json.lookup get_metadata "version" = some (Json.str "1.0.0")
    ∧ Json.lookup get_metadata "hooks" =
        some (Json.arr [Json.str "PreCommand", Json.str "PostCommand",
                        Json.str "PreRun", Json.str "PostRun"]) := by
  refine ⟨?_, rfl, rfl, rfl⟩
  simp [main, dispatch, h]

/-- C1 witness: a metadata request with all other fields populated. -/
theorem metadata_action_fixed_descriptor_witness :
    main envA (Except.ok reqC1) =
      (Json.obj [("success", Json.bool true), ("metadata", get_metadata)], 0) :=
  (metadata_action_fixed_descriptor envA reqC1 rfl).1

/-- For an execute_hook request with a present, non-empty hook identifier,
dispatch delegates to the registry and wraps its result. -/
theorem dispatch_execute_hook_some (env : PyEnv) (req : Request) (ht : String)
    (ha : req.action = some "execute_hook") (hh : req.hook_type = some ht)
    (hne : ht ≠ "") :
    dispatch env req =
      Json.obj [("success", Json.bool true),
                ("result", execute_hook env ht (req.context.getD []))] := by
  simp [dispatch, ha, hh, hne]

/-- C2: every response of the dispatcher satisfies `success = false` iff an
`error` field is present, with at most one of `metadata`/`result` present;
the response written on the exception path satisfies the same invariant. -/
theorem response_invariant_holds (env : PyEnv) (req : Request) (e : String) :
    responseInvariant (dispatch env req) ∧
    responseInvariant (main env (Except.error e)).1 := by
  constructor
  · unfold responseInvariant dispatch
    dsimp only
    split_ifs <;> simp [Json.lookup, pyGet]
  · unfold responseInvariant main
    simp [Json.lookup, pyGet]

/-- C3: an execute_hook request with no `hook_type` field gets exactly
`{success: false, error: "Missing hook_type"}` and the process exits with
the normal status 0, not through the failure path. -/
theorem missing_hook_type_logical_error (env : PyEnv) (req : Request)
    (ha : req.action = some "execute_hook") (hh : req.hook_type = none) :
    main env (Except.ok req) =
      (Json.obj [("success", Json.bool false),
                 ("error", Json.str "Missing hook_type")], 0) := by
  simp [main, dispatch, ha, hh]

/-- C3 witness: a concrete execute_hook request with `hook_type` absent. -/
theorem missing_hook_type_logical_error_witness :
    main envA (Except.ok reqC3) =
      (Json.obj [("success", Json.bool false),
                 ("error", Json.str "Missing hook_type")], 0) :=
  missing_hook_type_logical_error envA reqC3 rfl rfl

/-- C4 counterexample: the empty string is a `hook_type` string that is not
one of the four registered identifiers, yet the response to it is an error
with `success = false`, contradicting the claim's "success = true … never an
error" for every unregistered hook_type string. -/
theorem unregistered_hook_claim_counterexample :
    ("" ∉ (["PreCommand", "PostCommand", "PreRun", "PostRun"] : List String)) ∧
    dispatch envA reqC4 =
      Json.obj [("success", Json.bool false),
                ("error", Json.str "Missing hook_type")] :=
  ⟨by decide, rfl⟩

/-- C4 (amended): for every execute_hook request whose `hook_type` is a
NON-EMPTY string outside the four registered identifiers, the response has
`success = true` and a result equal to the neutral default HookResult (empty
`modified_env` and `plugin_data`, `continue_execution = true`, null message),
never an error. -/
theorem unregistered_nonempty_hook_neutral_default (env : PyEnv) (req : Request)
    (ht : String) (ha : req.action = some "execute_hook")
    (hh : req.hook_type = some ht) (hne : ht ≠ "")
    (hmem : ht ∉ (["PreCommand", "PostCommand", "PreRun", "PostRun"] : List String)) :
    main env (Except.ok req) =
      (Json.obj [("success", Json.bool true), ("result", default_hook_result)], 0) ∧
    Json.lookup default_hook_result "modified_env" = some (Json.obj []) ∧
    Json.lookup default_hook_result "plugin_data" = some (Json.obj []) ∧
    Json.lookup default_hook_result "continue_execution" = some (Json.bool true) ∧
    Json.lookup default_hook_result "message" = some Json.null := by
  refine ⟨?_, rfl, rfl, rfl, rfl⟩
  have hreg := pyGet_handlers_eq_none ht hmem
  simp [main, dispatch, ha, hh, hne, execute_hook, hreg]

/-- C4 witness: the unregistered identifier "TotallyUnknownHook" resolves to
the neutral default result. -/
theorem unregistered_nonempty_hook_neutral_default_witness :
    main envA (Except.ok reqC4a) =
      (Json.obj [("success", Json.bool true), ("result", default_hook_result)], 0) :=
  (unregistered_nonempty_hook_neutral_default envA reqC4a "TotallyUnknownHook"
    rfl rfl (by decide) (by decide)).1

/-- C5: for an execute_hook request whose `hook_type` is one of the four
known identifiers, with any context, the response has `success = true` and
its result has `continue_execution = true`. -/
theorem known_hook_success_continue (env : PyEnv) (req : Request) (ht : String)
    (ha : req.action = some "execute_hook") (hh : req.hook_type = some ht)
    (hmem : ht ∈ (["PreCommand", "PostCommand", "PreRun", "PostRun"] : List String)) :
    Json.lookup (dispatch env req) "success" = some (Json.bool true) ∧
    ∃ r, Json.lookup (dispatch env req) "result" = some r ∧
      Json.lookup r "continue_execution" = some (Json.bool true) := by
  have hne : ht ≠ "" := by
    simp only [List.mem_cons, List.not_mem_nil, or_false] at hmem
    rcases hmem with rfl | rfl | rfl | rfl <;> decide
  rw [dispatch_execute_hook_some env req ht ha hh hne]
  refine ⟨rfl, execute_hook env ht (req.context.getD []), rfl, ?_⟩
  simp only [List.mem_cons, List.not_mem_nil, or_false] at hmem
  rcases hmem with rfl | rfl | rfl | rfl <;> rfl

/-- C5 witness: the registered identifier "PreCommand" with a populated
context. -/
theorem known_hook_success_continue_witness :
    Json.lookup (dispatch envA reqC5) "success" = some (Json.bool true) ∧
    ∃ r, Json.lookup (dispatch envA reqC5) "result" = some r ∧
      Json.lookup r "continue_execution" = some (Json.bool true) :=
  known_hook_success_continue envA reqC5 "PreCommand" rfl rfl (by decide)

/-- C6: a request whose `action` is outside the enumerated set (or absent)
gets `{success: false, error: "Unknown action: <value>"}` — where `<value>`
is Python's rendering of the supplied action, `"None"` when the field is
absent — and the process exits with the normal status 0. -/
theorem unknown_action_logical_error (env : PyEnv) (req : Request)
    (h : req.action ∉ ([some "metadata", some "execute_hook",
        some "initialize", some "shutdown"] : List (Option String))) :
    main env (Except.ok req) =
      (Json.obj [("success", Json.bool false),
                 ("error", Json.str ("Unknown action: " ++ pyStrOptAction req.action))],
       0) := by
  simp only [List.mem_cons, List.not_mem_nil, or_false, not_or] at h
  simp [main, dispatch, h.1, h.2.1, h.2.2.1, h.2.2.2]

/-- C6 witness: the action "bogus_action" produces exactly the error string
of the spec and exit status 0. -/
theorem unknown_action_logical_error_witness :
    main envA (Except.ok reqC6) =
      (Json.obj [("success", Json.bool false),
                 ("error", Json.str "Unknown action: bogus_action")], 0) :=
  unknown_action_logical_error envA reqC6 (by decide)

/-- C7: a decode failure is converted into a well-formed
`{success: false, error: <description>}` body with exit status 1, and every
successfully decoded request exits with status 0 — so the exception path is
the only source of a non-zero exit status. -/
theorem infrastructural_error_envelope (env : PyEnv) (e : String) (req : Request) :
    main env (Except.error e) =
      (Json.obj [("success", Json.bool false), ("error", Json.str e)], 1) ∧
    (main env (Except.ok req)).2 = 0 :=
  ⟨rfl, rfl⟩

/-- C8: every successful execute_hook response carries a result object with
all four HookResult keys present (`modified_env`, `plugin_data`,
`continue_execution`, `message`), for registered and unregistered hook
identifiers alike and any context. -/
theorem hook_result_fully_populated (env : PyEnv) (req : Request) (ht : String)
    (ha : req.action = some "execute_hook") (hh : req.hook_type = some ht)
    (hne : ht ≠ "") :
    ∃ r, Json.lookup (dispatch env req) "result" = some r ∧
      (Json.lookup r "modified_env").isSome = true ∧
      (Json.lookup r "plugin_data").isSome = true ∧
      (Json.lookup r "continue_execution").isSome = true ∧
      (Json.lookup r "message").isSome = true := by
  rw [dispatch_execute_hook_some env req ht ha hh hne]
  exact ⟨execute_hook env ht (req.context.getD []), rfl,
    (execute_hook_keys env ht _).1, (execute_hook_keys env ht _).2.1,
    (execute_hook_keys env ht _).2.2.1, (execute_hook_keys env ht _).2.2.2⟩

/-- C8 witness: the registered identifier "PostCommand" with an empty
context yields a result carrying all four keys. -/
theorem hook_result_fully_populated_witness :
    ∃ r, Json.lookup (dispatch envA reqC8) "result" = some r ∧
      (Json.lookup r "modified_env").isSome = true ∧
      (Json.lookup r "plugin_data").isSome = true ∧
      (Json.lookup r "continue_execution").isSome = true ∧
      (Json.lookup r "message").isSome = true :=
  hook_result_fully_populated envA reqC8 "PostCommand" rfl rfl (by decide)

/-- C9: an execute_hook request whose `hook_type` is present but equal to
the empty string (Python-falsy) is treated like an absent hook_type: the
response is `{success: false, error: "Missing hook_type"}`, not the
registry's neutral-default branch, and the exit status is 0. -/
theorem empty_hook_type_treated_as_missing (env : PyEnv) (req : Request)
    (ha : req.action = some "execute_hook") (hh : req.hook_type = some "") :
    main env (Except.ok req) =
      (Json.obj [("success", Json.bool false),
                 ("error", Json.str "Missing hook_type")], 0) := by
  simp [main, dispatch, ha, hh]

/-- C9 witness: a concrete request with `hook_type` equal to `""`. -/
theorem empty_hook_type_treated_as_missing_witness :
    main envA (Except.ok reqC9) =
      (Json.obj [("success", Json.bool false),
                 ("error", Json.str "Missing hook_type")], 0) :=
  empty_hook_type_treated_as_missing envA reqC9 rfl rfl

/-- C10: the hook identifiers advertised by the static metadata descriptor
are exactly the keys of the hook registry's handler mapping, in the same
order: PreCommand, PostCommand, PreRun, PostRun. -/
theorem metadata_hooks_equal_registry_keys :
    Json.lookup get_metadata "hooks" =
      some (Json.arr ((handlers.map Prod.fst).map Json.str)) ∧
    handlers.map Prod.fst = ["PreCommand", "PostCommand", "PreRun", "PostRun"] :=
  ⟨rfl, rfl⟩

end ExamplePlugin
